import Mathlib

/-!
Verification of the RecordSets collection controller
(`designate/api/v2/controllers/recordsets.py`).

The controller is embedded shallowly: each HTTP operation becomes a pure
function from an explicit backend state (the Directory Service data),
a caller context and the request inputs to a pair of
(trace of Directory Service calls issued, result or error).
The Directory Service itself, the parameter helpers
(`utils.get_paging_params`, `RestController._apply_filter_params`) and the
adapter layer live outside the provided source tree and are modelled from
the specification, as marked on each such definition.
-/

namespace Designate

/-- A Zone (called `domain` throughout the source), owned by the Directory
Service: an opaque id and a fully-qualified name. -/
structure Domain where
  id : String
  name : String
  deriving Repr, DecidableEq

/-- A RecordSet as the controller sees it: id, owning zone (`domain_id`),
name, type, ttl, record values, the `managed` protection flag and the
Directory-Service-reported `status`. -/
structure RecordSet where
  id : String
  domain_id : String
  name : String
  type : String
  ttl : Nat
  records : List String
  managed : Bool
  status : String
  deriving Repr, DecidableEq

/-- An individual Record: belongs to one RecordSet (`recordset_id`) and one
zone (`domain_id`), and carries a `data` payload string. -/
structure Record where
  id : String
  recordset_id : String
  domain_id : String
  data : String
  deriving Repr, DecidableEq

/-- The caller context (`request.environ['context']`): only the
`edit_managed_records` capability matters to this controller. -/
structure RequestContext where
  edit_managed_records : Bool
  deriving Repr, DecidableEq

/-- The equality-filter criterion dictionary built by the controller:
optional `name`, `type`, `ttl`, `data` filters plus the `domain_id` the
controller always adds. -/
structure Criterion where
  name : Option String := none
  type : Option String := none
  ttl : Option String := none
  data : Option String := none
  domain_id : Option String := none
  deriving Repr, DecidableEq

/-- Errors surfaced by the controller: business-rule `BadRequest` with its
message, `NotFound` from the Directory Service, the sort-key validation
failure and object validation failure. -/
inductive Err where
  | badRequest (msg : String)
  | notFound
  | invalidSortKey
  | invalidObject
  deriving Repr, DecidableEq

/-- One Directory Service call, recorded in issue order. -/
inductive Call where
  | get_domain (zone_id : String)
  | get_recordset (zone_id recordset_id : String)
  | find_recordsets (criterion : Criterion)
  | find_records (criterion : Criterion)
  | create_recordset (zone_id : String)
  | update_recordset (recordset_id : String)
  | delete_recordset (zone_id recordset_id : String)
  deriving Repr, DecidableEq

/-- The Directory Service state: its zones, recordsets and records, plus the
status it stamps on the recordset returned by a mutation call and the id it
assigns on create. -/
structure Backend where
  domains : List Domain
  recordsets : List RecordSet
  records : List Record
  result_status : String
  new_id : String
  deriving Repr, DecidableEq

/-- Modelled from the spec: `get_zone(ctx, zone_id) -> Zone`, failing
`NotFound` when the zone is absent (`central_api.get_domain` in the source).
-/
def Backend.get_domain (b : Backend) (zone_id : String) : Except Err Domain :=
  match b.domains.find? (fun d => d.id == zone_id) with
  | some d => .ok d
  | none => .error .notFound

/-- Modelled from the spec: `get_recordset(ctx, zone_id, recordset_id)`,
failing `NotFound` when absent. -/
def Backend.get_recordset (b : Backend) (zone_id recordset_id : String) :
    Except Err RecordSet :=
  match b.recordsets.find?
      (fun r => r.id == recordset_id && r.domain_id == zone_id) with
  | some r => .ok r
  | none => .error .notFound

/-- Whether a recordset satisfies every equality filter present in the
criterion (the `data` key never applies to recordsets and is ignored). -/
def matchesCriterion (c : Criterion) (r : RecordSet) : Bool :=
  (match c.name with | some v => r.name == v | none => true) &&
  (match c.type with | some v => r.type == v | none => true) &&
  (match c.ttl with | some v => toString r.ttl == v | none => true) &&
  (match c.domain_id with | some v => r.domain_id == v | none => true)

/-- Modelled from the spec: `find_recordsets(ctx, criterion, marker, limit,
sort_key, sort_dir) -> RecordSetList`, ordered. The recordsets matching
every equality filter are returned in stored order; marker, limit, sort_key
and sort_dir select the pagination window, treated here as the identity
window since every claim is stated relative to this primary query's own
output. -/
def Backend.find_recordsets (b : Backend) (c : Criterion)
    (_marker _limit _sort_key _sort_dir : Option String) : List RecordSet :=
  b.recordsets.filter (fun r => matchesCriterion c r)

/-- Whether a record satisfies the record-side criterion used by the
controller (`data` and `domain_id` equality). -/
def matchesRecordCriterion (c : Criterion) (r : Record) : Bool :=
  (match c.data with | some v => r.data == v | none => true) &&
  (match c.domain_id with | some v => r.domain_id == v | none => true)

/-- Modelled from the spec: `find_records(ctx, criterion) -> RecordList`. -/
def Backend.find_records (b : Backend) (c : Criterion) : List Record :=
  b.records.filter (fun r => matchesRecordCriterion c r)

/-- Modelled from the spec: `create_recordset(ctx, zone_id, recordset)`
returns the created RecordSet; the Directory Service assigns the new id and
reports the processing status. -/
def Backend.create_recordset (b : Backend) (zone_id : String)
    (rs : RecordSet) : RecordSet :=
  { rs with id := b.new_id, domain_id := zone_id, status := b.result_status }

/-- Modelled from the spec: `update_recordset(ctx, recordset)` returns the
updated RecordSet with the Directory-Service-reported status. -/
def Backend.update_recordset (b : Backend) (rs : RecordSet) : RecordSet :=
  { rs with status := b.result_status }

/-- Modelled from the spec: `delete_recordset(ctx, zone_id, recordset_id)`
returns the pre-delete/accepted representation with the reported status. -/
def Backend.delete_recordset (b : Backend) (_zone_id : String)
    (rs : RecordSet) : RecordSet :=
  { rs with status := b.result_status }

/-- `RecordSetsController.SORT_KEYS` from the source. -/
def SORT_KEYS : List String :=
  ["created_at", "id", "updated_at", "domain_id", "tenant_id",
   "name", "type", "ttl", "records"]

/-- The `accepted_filters` tuple from `get_all` in the source. -/
def accepted_filters : List String := ["name", "type", "ttl", "data"]

/-- The four pagination parameter names consumed by `get_paging_params`. -/
def PAGING_KEYS : List String := ["marker", "limit", "sort_key", "sort_dir"]

/-- First value bound to a key in the raw parameter list, if any. -/
def lookupParam (params : List (String × String)) (key : String) :
    Option String :=
  (params.find? (fun kv => kv.1 == key)).map (fun kv => kv.2)

/-- Modelled from the spec: `utils.get_paging_params(params, sort_keys)`
(source lives in `designate/utils.py`, outside the provided tree). It
extracts `marker`, `limit`, `sort_key` and `sort_dir` from the raw
parameters, leaving the rest for the filter step, and rejects a `sort_key`
outside the allowed set with a validation error before any query. marker,
limit and sort_dir are passed through opaquely. -/
def get_paging_params (params : List (String × String))
    (sort_keys : List String) :
    Except Err (Option String × Option String × Option String ×
      Option String × List (String × String)) :=
  let marker := lookupParam params "marker"
  let limit := lookupParam params "limit"
  let sort_key := lookupParam params "sort_key"
  let sort_dir := lookupParam params "sort_dir"
  let rest := params.filter (fun kv => !PAGING_KEYS.contains kv.1)
  match sort_key with
  | some k =>
      if sort_keys.contains k then
        .ok (marker, limit, sort_key, sort_dir, rest)
      else
        .error .invalidSortKey
  | none => .ok (marker, limit, sort_key, sort_dir, rest)

/-- Modelled from the spec: `RestController._apply_filter_params(params,
accepted_filters, criterion)` (source lives in
`designate/api/v2/controllers/rest.py`, outside the provided tree). Every
remaining parameter must be in the allow-list, else the call fails
`BadRequest`; allowed parameters become equality criteria. -/
def apply_filter_params (params : List (String × String)) :
    Except Err Criterion :=
  if params.all (fun kv => accepted_filters.contains kv.1) then
    .ok { name := lookupParam params "name",
          type := lookupParam params "type",
          ttl := lookupParam params "ttl",
          data := lookupParam params "data",
          domain_id := none }
  else
    .error (.badRequest "Invalid filters")

/-- The part of `RecordSetsController.get_all` after the zone-existence
check: paging-parameter extraction, filter extraction, the primary
recordset query and the optional data-filter join. Returns the trace of
Directory Service calls issued after `get_domain`, and the result. -/
def get_all_after_zone (b : Backend) (_ctx : RequestContext)
    (zone_id : String) (params : List (String × String)) :
    List Call × Except Err (List RecordSet) :=
  match get_paging_params params SORT_KEYS with
  | .error e => ([], .error e)
  | .ok (marker, limit, sort_key, sort_dir, rest) =>
    match apply_filter_params rest with
    | .error e => ([], .error e)
    | .ok criterion0 =>
      let criterion1 := { criterion0 with domain_id := some zone_id }
      let data := criterion1.data
      let criterion := { criterion1 with data := none }
      let recordsets := b.find_recordsets criterion marker limit sort_key
        sort_dir
      match data with
      | some d =>
          if d ≠ "" then
            let recordCriterion : Criterion :=
              { data := some d, domain_id := some zone_id }
            let records := b.find_records recordCriterion
            let recordsets_with_data :=
              records.map (fun r => r.recordset_id)
            ([Call.find_recordsets criterion,
              Call.find_records recordCriterion],
             .ok (recordsets.filter
               (fun r => recordsets_with_data.contains r.id)))
          else
            ([Call.find_recordsets criterion], .ok recordsets)
      | none => ([Call.find_recordsets criterion], .ok recordsets)

/-- `RecordSetsController.get_all` (list): zone-existence check first, then
query translation and the primary query, then the data-filter join. -/
def get_all (b : Backend) (ctx : RequestContext) (zone_id : String)
    (params : List (String × String)) :
    List Call × Except Err (List RecordSet) :=
  match b.get_domain zone_id with
  | .error e => ([Call.get_domain zone_id], .error e)
  | .ok _ =>
      let r := get_all_after_zone b ctx zone_id params
      (Call.get_domain zone_id :: r.1, r.2)

/-- The submitted JSON body of an update call: a partial overlay, each field
optionally present. -/
structure RecordSetBody where
  name : Option String := none
  type : Option String := none
  ttl : Option Nat := none
  records : Option (List String) := none
  deriving Repr, DecidableEq

/-- Modelled from the spec: `DesignateAdapter.parse('API_v2', body, recordset)`
(adapter layer outside the provided tree) merges/overlays the submitted body
fields into the current RecordSet. -/
def RecordSetBody.applyTo (body : RecordSetBody) (rs : RecordSet) :
    RecordSet :=
  { rs with
    name := body.name.getD rs.name,
    type := body.type.getD rs.type,
    ttl := body.ttl.getD rs.ttl,
    records := body.records.getD rs.records }

/-- Modelled from the spec: `recordset.validate()` (objects layer outside the
provided tree): structural field-level validation — required fields present,
`ttl` in numeric range, `type` known. -/
def RecordSet.validate (rs : RecordSet) : Bool :=
  rs.name ≠ "" &&
  ["A", "AAAA", "CNAME", "MX", "NS", "PTR", "SOA", "SPF", "SRV", "SSHFP",
   "TXT"].contains rs.type &&
  decide (1 ≤ rs.ttl) && decide (rs.ttl ≤ 2147483647)

/-- Modelled from the spec: the rendered representation's canonical
`links.self` URL, used for the `Location` header on create. -/
def selfLink (zone_id recordset_id : String) : String :=
  "/v2/zones/" ++ zone_id ++ "/recordsets/" ++ recordset_id

/-- `RecordSetsController.get_one`: fetch and return a single RecordSet. -/
def get_one (b : Backend) (_ctx : RequestContext)
    (zone_id recordset_id : String) :
    List Call × Except Err RecordSet :=
  ([Call.get_recordset zone_id recordset_id],
   b.get_recordset zone_id recordset_id)

/-- `RecordSetsController.post_all` (create): parse the body, validate it,
reject a submitted SOA type, call the Directory Service, and map the
reported status onto 202 (pending) or 201, setting the Location header to
the created resource's self link. The result carries
(status_int, Location header, response recordset). -/
def post_all (b : Backend) (_ctx : RequestContext) (zone_id : String)
    (body : RecordSet) :
    List Call × Except Err (Nat × String × RecordSet) :=
  if !body.validate then
    ([], .error .invalidObject)
  else if body.type == "SOA" then
    ([], .error (.badRequest "Creating a SOA recordset is not allowed"))
  else
    let recordset := b.create_recordset zone_id body
    let status_int := if recordset.status == "PENDING" then 202 else 201
    ([Call.create_recordset zone_id],
     .ok (status_int, selfLink zone_id recordset.id, recordset))

/-- The tail of `RecordSetsController.put_one` after every guard has
passed: merge the body into the current recordset, validate, call the
Directory Service and map the reported status onto 202 (pending) or 200. -/
def put_finish (b : Backend) (body : RecordSetBody) (current : RecordSet)
    (t : List Call) : List Call × Except Err (Nat × RecordSet) :=
  let merged := body.applyTo current
  if !merged.validate then
    (t, .error .invalidObject)
  else
    let updated := b.update_recordset merged
    let status_int := if updated.status == "PENDING" then 202 else 200
    (t ++ [Call.update_recordset merged.id], .ok (status_int, updated))

/-- `RecordSetsController.put_one` (update): fetch the current recordset,
then the guards in source order — managed-capability, SOA, root-NS (the
zone lookup only in the NS branch) — then merge, validate, update and map
the status. -/
def put_one (b : Backend) (ctx : RequestContext)
    (zone_id recordset_id : String) (body : RecordSetBody) :
    List Call × Except Err (Nat × RecordSet) :=
  match b.get_recordset zone_id recordset_id with
  | .error e => ([Call.get_recordset zone_id recordset_id], .error e)
  | .ok recordset =>
    let t0 := [Call.get_recordset zone_id recordset_id]
    if recordset.managed && !ctx.edit_managed_records then
      (t0, .error (.badRequest "Managed records may not be updated"))
    else if recordset.type == "SOA" then
      (t0, .error (.badRequest "Updating SOA recordsets is not allowed"))
    else if recordset.type == "NS" then
      match b.get_domain zone_id with
      | .error e => (t0 ++ [Call.get_domain zone_id], .error e)
      | .ok zone =>
        if recordset.name == zone.name then
          (t0 ++ [Call.get_domain zone_id],
           .error (.badRequest "Updating a root zone NS record is not allowed"))
        else
          put_finish b body recordset (t0 ++ [Call.get_domain zone_id])
    else
      put_finish b body recordset t0

/-- `RecordSetsController.delete_one` (delete): fetch the current recordset,
reject type SOA, call the Directory Service delete, always 202. -/
def delete_one (b : Backend) (_ctx : RequestContext)
    (zone_id recordset_id : String) :
    List Call × Except Err (Nat × RecordSet) :=
  match b.get_recordset zone_id recordset_id with
  | .error e => ([Call.get_recordset zone_id recordset_id], .error e)
  | .ok recordset =>
    if recordset.type == "SOA" then
      ([Call.get_recordset zone_id recordset_id],
       .error (.badRequest "Deleting a SOA recordset is not allowed"))
    else
      let deleted := b.delete_recordset zone_id recordset
      ([Call.get_recordset zone_id recordset_id,
        Call.delete_recordset zone_id recordset_id],
       .ok (202, deleted))

/-- The §4.2 guarantee stated from the spec's words: keep exactly those
recordsets of the primary query's output that contain at least one record
matching the data filter within the zone, preserving the primary query's
order. -/
def dataIntersection (b : Backend) (zone_id d : String)
    (primary : List RecordSet) : List RecordSet :=
  primary.filter (fun r =>
    (b.find_records { data := some d, domain_id := some zone_id }).any
      (fun rec => r.id == rec.recordset_id))

/-! Concrete fixtures used by witnesses and counterexamples. -/

/-- A concrete zone. -/
def exZone : Domain := { id := "z1", name := "example.com." }

/-- An ordinary A recordset in the zone. -/
def exA : RecordSet :=
  { id := "r-a", domain_id := "z1", name := "a.example.com.", type := "A",
    ttl := 300, records := ["1.2.3.4"], managed := false, status := "ACTIVE" }

/-- The zone-root NS recordset. -/
def exNSRoot : RecordSet :=
  { id := "r-ns", domain_id := "z1", name := "example.com.", type := "NS",
    ttl := 3600, records := ["ns1.example.com."], managed := false,
    status := "ACTIVE" }

/-- The zone's SOA recordset. -/
def exSOA : RecordSet :=
  { id := "r-soa", domain_id := "z1", name := "example.com.", type := "SOA",
    ttl := 3600, records := ["ns1.example.com. mail.example.com. 1"],
    managed := false, status := "ACTIVE" }

/-- A managed (system-protected) A recordset. -/
def exManaged : RecordSet :=
  { id := "r-managed", domain_id := "z1", name := "m.example.com.",
    type := "A", ttl := 300, records := ["10.0.0.1"], managed := true,
    status := "ACTIVE" }

/-- A managed recordset that is also of type SOA. -/
def exManagedSOA : RecordSet :=
  { id := "r-msoa", domain_id := "z1", name := "example.com.",
    type := "SOA", ttl := 3600,
    records := ["ns1.example.com. mail.example.com. 2"], managed := true,
    status := "ACTIVE" }

/-- A record belonging to the A recordset. -/
def exRec : Record :=
  { id := "rec-1", recordset_id := "r-a", domain_id := "z1",
    data := "1.2.3.4" }

/-- A concrete Directory Service state holding the fixtures. -/
def exB : Backend :=
  { domains := [exZone],
    recordsets := [exA, exNSRoot, exSOA, exManaged, exManagedSOA],
    records := [exRec],
    result_status := "PENDING",
    new_id := "rs-new" }

/-- A caller context without the edit-managed-records capability. -/
def ctxPlain : RequestContext := { edit_managed_records := false }

/-- A caller context with the edit-managed-records capability. -/
def ctxEdit : RequestContext := { edit_managed_records := true }

/-- An update body changing nothing (pure overlay of no fields). -/
def emptyBody : RecordSetBody := {}

/-! Theorems. -/

/-- Membership of an id in the mapped recordset ids of a record list equals
an existence check over the list itself. -/
theorem contains_map_recordset_id (l : List Record) (x : String) :
    (l.map (fun r => r.recordset_id)).contains x =
      l.any (fun r => x == r.recordset_id) := by
  induction l with
  | nil => rfl
  | cons a as ih =>
      simp only [List.map_cons, List.contains_cons, List.any_cons, ih]

/-- `put_finish` issues no zone lookup: a `get_domain` call is in its trace
exactly when it was already in the accumulated trace. -/
theorem get_domain_mem_put_finish (b : Backend) (body : RecordSetBody)
    (current : RecordSet) (t : List Call) (z : String) :
    Call.get_domain z ∈ (put_finish b body current t).1 ↔
      Call.get_domain z ∈ t := by
  unfold put_finish
  by_cases h : (body.applyTo current).validate = true <;> simp [h]

/-- Claim C1 counterexample: with an existing zone and a sort_key outside
the allowed set, `list` does fail validation, but a Directory Service call
(the zone lookup) has already been issued before the failure, so "no
Directory Service call of any kind is made before the failure" is false. -/
theorem C1_counterexample :
    (get_all exB ctxPlain "z1" [("sort_key", "bogus")]).2 =
        Except.error Err.invalidSortKey ∧
      Call.get_domain "z1" ∈
        (get_all exB ctxPlain "z1" [("sort_key", "bogus")]).1 :=
  ⟨rfl, List.Mem.head _⟩

/-- Claim C1 as amended: for every list call on an existing zone whose
sort_key parameter is outside the allowed set, the operation fails with the
sort-key validation error and no recordset or record query is issued — the
zone-existence lookup is the only Directory Service call made before the
failure. -/
theorem C1_sort_key_validation (b : Backend) (ctx : RequestContext)
    (z : String) (params : List (String × String)) (dom : Domain)
    (k : String)
    (hz : b.get_domain z = .ok dom)
    (hk : lookupParam params "sort_key" = some k)
    (hmem : k ∉ SORT_KEYS) :
    (get_all b ctx z params).2 = .error .invalidSortKey ∧
      (get_all b ctx z params).1 = [Call.get_domain z] := by
  simp [get_all, get_all_after_zone, get_paging_params, hz, hk, hmem]

/-- Claim C1 witness: the amended statement evaluated at the concrete
fixture backend with sort_key "bogus". -/
theorem C1_witness :
    (get_all exB ctxPlain "z1" [("sort_key", "bogus")]).2 =
        .error .invalidSortKey ∧
      (get_all exB ctxPlain "z1" [("sort_key", "bogus")]).1 =
        [Call.get_domain "z1"] :=
  C1_sort_key_validation exB ctxPlain "z1" [("sort_key", "bogus")] exZone
    "bogus" rfl rfl (by decide)

/-- Claim C4: for every create call whose parsed, validated body has type
SOA, the operation fails BadRequest and no Directory Service call at all
(in particular no create call) is issued. -/
theorem C4_create_soa_rejected (b : Backend) (ctx : RequestContext)
    (z : String) (body : RecordSet)
    (hv : body.validate = true) (ht : body.type = "SOA") :
    (post_all b ctx z body).2 =
        .error (.badRequest "Creating a SOA recordset is not allowed") ∧
      (post_all b ctx z body).1 = [] := by
  simp [post_all, hv, ht]

/-- Claim C4 witness: creating the concrete SOA body is rejected with an
empty call trace. -/
theorem C4_witness :
    (post_all exB ctxPlain "z1" exSOA).2 =
        .error (.badRequest "Creating a SOA recordset is not allowed") ∧
      (post_all exB ctxPlain "z1" exSOA).1 = [] :=
  C4_create_soa_rejected exB ctxPlain "z1" exSOA (by decide) rfl

/-- Claim C6: for every delete call whose currently persisted recordset has
type SOA, the operation fails BadRequest and no Directory Service delete
call is issued. -/
theorem C6_delete_soa_rejected (b : Backend) (ctx : RequestContext)
    (z rid : String) (rs : RecordSet)
    (hrs : b.get_recordset z rid = .ok rs) (ht : rs.type = "SOA") :
    (delete_one b ctx z rid).2 =
        .error (.badRequest "Deleting a SOA recordset is not allowed") ∧
      ∀ zz rr, Call.delete_recordset zz rr ∉ (delete_one b ctx z rid).1 := by
  simp [delete_one, hrs, ht]

/-- Claim C6 witness: deleting the concrete SOA recordset is rejected with
no delete call in the trace. -/
theorem C6_witness :
    (delete_one exB ctxPlain "z1" "r-soa").2 =
        .error (.badRequest "Deleting a SOA recordset is not allowed") ∧
      ∀ zz rr,
        Call.delete_recordset zz rr ∉ (delete_one exB ctxPlain "z1" "r-soa").1 :=
  C6_delete_soa_rejected exB ctxPlain "z1" "r-soa" exSOA rfl rfl

/-- Claim C8: in every list call the zone-existence lookup is the first
Directory Service call issued, and when the zone is absent the call fails
NotFound with the zone lookup as the only call in the trace — no recordset
query is ever issued before zone existence is verified. -/
theorem C8_zone_check_first (b : Backend) (ctx : RequestContext)
    (z : String) (params : List (String × String)) :
    (get_all b ctx z params).1.head? = some (Call.get_domain z) ∧
      (b.get_domain z = .error .notFound →
        (get_all b ctx z params).2 = .error .notFound ∧
        (get_all b ctx z params).1 = [Call.get_domain z]) := by
  cases hz : b.get_domain z with
  | error e =>
      refine ⟨by simp [get_all, hz], fun h => ?_⟩
      simp only [Except.error.injEq] at h
      subst h
      exact ⟨by simp [get_all, hz], by simp [get_all, hz]⟩
  | ok dom => simp [get_all, hz]

/-- Claim C8 witness: listing a zone absent from the fixture backend fails
NotFound after exactly the zone lookup. -/
theorem C8_witness :
    (get_all exB ctxPlain "no-such-zone" []).1.head? =
        some (Call.get_domain "no-such-zone") ∧
      (get_all exB ctxPlain "no-such-zone" []).2 = .error .notFound ∧
      (get_all exB ctxPlain "no-such-zone" []).1 =
        [Call.get_domain "no-such-zone"] :=
  ⟨(C8_zone_check_first exB ctxPlain "no-such-zone" []).1,
   (C8_zone_check_first exB ctxPlain "no-such-zone" []).2 rfl⟩

/-- The modelled zone lookup fails only with NotFound. -/
theorem get_domain_error_is_notFound (b : Backend) (z : String) (e : Err)
    (h : b.get_domain z = .error e) : e = .notFound := by
  unfold Backend.get_domain at h
  cases hf : b.domains.find? (fun d => d.id == z) <;> rw [hf] at h <;>
    simp at h
  exact h.symm

/-- `put_finish` never fails with a BadRequest: its only failure is the
validation error, after every guard has already passed. -/
theorem put_finish_no_badRequest (b : Backend) (body : RecordSetBody)
    (current : RecordSet) (t : List Call) (m : String) :
    (put_finish b body current t).2 ≠ .error (.badRequest m) := by
  unfold put_finish
  by_cases h : (body.applyTo current).validate = true <;> simp [h]

/-- Claim C7: every successful create call answers 202 when the RecordSet
returned by the Directory Service reports the pending status and 201
otherwise, and sets the Location header to the created resource's self
link. -/
theorem C7_create_status_mapping (b : Backend) (ctx : RequestContext)
    (z : String) (body : RecordSet)
    (hv : body.validate = true) (ht : body.type ≠ "SOA") :
    (post_all b ctx z body).2 =
      .ok ((if (b.create_recordset z body).status == "PENDING"
              then 202 else 201),
           selfLink z (b.create_recordset z body).id,
           b.create_recordset z body) := by
  have ht2 : (body.type == "SOA") = false := by simp [ht]
  simp [post_all, hv, ht2]

/-- Claim C7 witness: creating the concrete A recordset while the Directory
Service reports "PENDING" yields 202 with the Location header set to the
new resource's self link. -/
theorem C7_witness :
    (post_all exB ctxPlain "z1" exA).2 =
      .ok ((if (exB.create_recordset "z1" exA).status == "PENDING"
              then 202 else 201),
           selfLink "z1" (exB.create_recordset "z1" exA).id,
           exB.create_recordset "z1" exA) :=
  C7_create_status_mapping exB ctxPlain "z1" exA (by decide) (by decide)

/-- Claim C3: every update of a persisted zone-root NS recordset fails
BadRequest whatever the body, and the zone lookup is issued only when the
current type is NS. -/
theorem C3_root_ns_update_rejected (b : Backend) (ctx : RequestContext)
    (z rid : String) (body : RecordSetBody) :
    (∀ rs zone, b.get_recordset z rid = .ok rs → rs.type = "NS" →
        b.get_domain z = .ok zone → rs.name = zone.name →
        ∃ m, (put_one b ctx z rid body).2 = .error (.badRequest m)) ∧
      (Call.get_domain z ∈ (put_one b ctx z rid body).1 →
        ∃ rs, b.get_recordset z rid = .ok rs ∧ rs.type = "NS") := by
  constructor
  · intro rs zone hrs ht hz hname
    by_cases hmng : (rs.managed && !ctx.edit_managed_records) = true
    · exact ⟨"Managed records may not be updated", by simp [put_one, hrs, hmng]⟩
    · refine ⟨"Updating a root zone NS record is not allowed", ?_⟩
      have hsoa : (rs.type == "SOA") = false := by simp [ht]
      have hns : (rs.type == "NS") = true := by simp [ht]
      simp [put_one, hrs, hmng, hsoa, hns, hz, hname]
  · intro hmem
    cases hrs : b.get_recordset z rid with
    | error e => simp [put_one, hrs] at hmem
    | ok rs =>
      refine ⟨rs, rfl, ?_⟩
      by_cases hns : rs.type = "NS"
      · exact hns
      · exfalso
        have hns2 : (rs.type == "NS") = false := by simp [hns]
        by_cases hmng : (rs.managed && !ctx.edit_managed_records) = true
        · simp [put_one, hrs, hmng] at hmem
        · by_cases hsoa : (rs.type == "SOA") = true
          · simp [put_one, hrs, hmng, hsoa] at hmem
          · simp [put_one, hrs, hmng, hsoa, hns2,
              get_domain_mem_put_finish] at hmem

/-- Claim C3 witness: updating the concrete zone-root NS recordset fails
BadRequest, and the zone lookup in the concrete trace implies the current
type is NS. -/
theorem C3_witness :
    (∃ m, (put_one exB ctxPlain "z1" "r-ns" emptyBody).2 =
        .error (.badRequest m)) ∧
      ∃ rs, exB.get_recordset "z1" "r-ns" = .ok rs ∧ rs.type = "NS" :=
  ⟨(C3_root_ns_update_rejected exB ctxPlain "z1" "r-ns" emptyBody).1
      exNSRoot exZone rfl rfl rfl rfl,
   (C3_root_ns_update_rejected exB ctxPlain "z1" "r-ns" emptyBody).2
      (by decide)⟩

/-- Claim C5: updating a persisted managed recordset fails BadRequest with
the managed-records message when the caller lacks the edit-managed
capability, and with the capability the identical request never fails on
the managed check. -/
theorem C5_managed_guard (b : Backend) (z rid : String)
    (body : RecordSetBody) (rs : RecordSet)
    (hrs : b.get_recordset z rid = .ok rs) (hm : rs.managed = true) :
    (∀ ctx : RequestContext, ctx.edit_managed_records = false →
        (put_one b ctx z rid body).2 =
          .error (.badRequest "Managed records may not be updated")) ∧
      (∀ ctx : RequestContext, ctx.edit_managed_records = true →
        (put_one b ctx z rid body).2 ≠
          .error (.badRequest "Managed records may not be updated")) := by
  constructor
  · intro ctx hc
    simp [put_one, hrs, hm, hc]
  · intro ctx hc
    have hguard : (rs.managed && !ctx.edit_managed_records) = false := by
      simp [hm, hc]
    by_cases hsoa : (rs.type == "SOA") = true
    · simp [put_one, hrs, hguard, hsoa]
    · by_cases hns : (rs.type == "NS") = true
      · cases hz : b.get_domain z with
        | error e =>
            have he : e = .notFound := get_domain_error_is_notFound b z e hz
            subst he
            simp [put_one, hrs, hguard, hsoa, hns, hz]
        | ok zone =>
            by_cases hname : (rs.name == zone.name) = true
            · simp [put_one, hrs, hguard, hsoa, hns, hz, hname]
            · simp [put_one, hrs, hguard, hsoa, hns, hz, hname,
                put_finish_no_badRequest]
      · simp [put_one, hrs, hguard, hsoa, hns, put_finish_no_badRequest]

/-- Claim C5 witness: the concrete managed recordset is rejected for the
plain caller and passes the managed guard for the privileged caller. -/
theorem C5_witness :
    (put_one exB ctxPlain "z1" "r-managed" emptyBody).2 =
        .error (.badRequest "Managed records may not be updated") ∧
      (put_one exB ctxEdit "z1" "r-managed" emptyBody).2 ≠
        .error (.badRequest "Managed records may not be updated") :=
  ⟨(C5_managed_guard exB "z1" "r-managed" emptyBody exManaged rfl rfl).1
      ctxPlain rfl,
   (C5_managed_guard exB "z1" "r-managed" emptyBody exManaged rfl rfl).2
      ctxEdit rfl⟩

/-- Claim C10: the update guards run in the order managed-capability, SOA,
root-NS, so a managed recordset updated without the capability always fails
with the managed-records message, whatever its type. -/
theorem C10_managed_guard_first (b : Backend) (ctx : RequestContext)
    (z rid : String) (body : RecordSetBody) (rs : RecordSet)
    (hrs : b.get_recordset z rid = .ok rs) (hm : rs.managed = true)
    (hc : ctx.edit_managed_records = false) :
    (put_one b ctx z rid body).2 =
      .error (.badRequest "Managed records may not be updated") := by
  simp [put_one, hrs, hm, hc]

/-- Claim C10 witness: the concrete managed recordset of type SOA still
fails with the managed-records message, not the SOA one. -/
theorem C10_witness :
    (put_one exB ctxPlain "z1" "r-msoa" emptyBody).2 =
      .error (.badRequest "Managed records may not be updated") :=
  C10_managed_guard_first exB ctxPlain "z1" "r-msoa" emptyBody exManagedSOA
    rfl rfl rfl

/-- Claim C2: every list call carrying a (non-empty) data filter returns
exactly the intersection of the primary query's output — the recordsets
matching the metadata filters, in its order and pagination window — with
the recordsets containing at least one record matching the data filter;
and a data filter matching zero records yields the empty list. -/
theorem C2_data_filter_intersection (b : Backend) (ctx : RequestContext)
    (z : String) (params : List (String × String)) (dom : Domain)
    (marker limit sort_key sort_dir : Option String)
    (rest : List (String × String)) (c0 : Criterion) (d : String)
    (hz : b.get_domain z = .ok dom)
    (hp : get_paging_params params SORT_KEYS =
      .ok (marker, limit, sort_key, sort_dir, rest))
    (hf : apply_filter_params rest = .ok c0)
    (hd : c0.data = some d) (hne : d ≠ "") :
    (get_all b ctx z params).2 =
        .ok (dataIntersection b z d
          (b.find_recordsets { c0 with domain_id := some z, data := none }
            marker limit sort_key sort_dir)) ∧
      (b.find_records { data := some d, domain_id := some z } = [] →
        (get_all b ctx z params).2 = .ok []) := by
  have hfun :
      (fun r : RecordSet =>
        ((b.find_records { data := some d, domain_id := some z }).map
          (fun rec => rec.recordset_id)).contains r.id) =
      (fun r : RecordSet =>
        (b.find_records { data := some d, domain_id := some z }).any
          (fun rec => r.id == rec.recordset_id)) :=
    funext fun r => contains_map_recordset_id _ _
  have hmain : (get_all b ctx z params).2 =
      .ok (dataIntersection b z d
        (b.find_recordsets { c0 with domain_id := some z, data := none }
          marker limit sort_key sort_dir)) := by
    simp only [get_all, get_all_after_zone, hz, hp, hf, hd]
    simp only [dataIntersection, ← hfun]
    simp [hne]
  refine ⟨hmain, fun hempty => ?_⟩
  rw [hmain]
  simp [dataIntersection, hempty]

/-- Claim C2 witness: a data filter matching no record of the fixture
backend yields the empty list even though recordsets exist in the zone. -/
theorem C2_witness :
    (get_all exB ctxPlain "z1" [("data", "9.9.9.9")]).2 = .ok [] :=
  (C2_data_filter_intersection exB ctxPlain "z1" [("data", "9.9.9.9")]
      exZone none none none none [("data", "9.9.9.9")]
      { data := some "9.9.9.9" } "9.9.9.9"
      rfl rfl rfl rfl (by decide)).2 rfl

/-- Claim C9: a list call whose data parameter is present but empty (the
falsy string) skips the record join: no record query is issued and the
result is all recordsets matching the remaining metadata criteria. -/
theorem C9_empty_data_skips_join (b : Backend) (ctx : RequestContext)
    (z : String) (params : List (String × String)) (dom : Domain)
    (marker limit sort_key sort_dir : Option String)
    (rest : List (String × String)) (c0 : Criterion)
    (hz : b.get_domain z = .ok dom)
    (hp : get_paging_params params SORT_KEYS =
      .ok (marker, limit, sort_key, sort_dir, rest))
    (hf : apply_filter_params rest = .ok c0)
    (hd : c0.data = some "") :
    (get_all b ctx z params).2 =
        .ok (b.find_recordsets { c0 with domain_id := some z, data := none }
          marker limit sort_key sort_dir) ∧
      (get_all b ctx z params).1 =
        [Call.get_domain z,
         Call.find_recordsets { c0 with domain_id := some z, data := none }] := by
  simp [get_all, get_all_after_zone, hz, hp, hf, hd]

/-- Claim C9 witness: a concrete list call with `data=` empty and a type
filter returns the metadata matches with no record query in the trace. -/
theorem C9_witness :
    (get_all exB ctxPlain "z1" [("type", "A"), ("data", "")]).2 =
        .ok (exB.find_recordsets
          { type := some "A", domain_id := some "z1" } none none none none) ∧
      (get_all exB ctxPlain "z1" [("type", "A"), ("data", "")]).1 =
        [Call.get_domain "z1",
         Call.find_recordsets { type := some "A", domain_id := some "z1" }] :=
  C9_empty_data_skips_join exB ctxPlain "z1" [("type", "A"), ("data", "")]
    exZone none none none none [("type", "A"), ("data", "")]
    { type := some "A", data := some "" } rfl rfl rfl rfl

end Designate
